import Mathlib

/-!
Shallow embedding of the two AWS Lambda handlers of
`amazon-transcribe-live-call-analytics`:

* `lca-chimevc-stack/lambda_functions/voice_tone_processor/lambda_function.py`
  (the voice-tone handler), and
* `lca-ai-stack/source/lambda_functions/call_event_processor/lambda_function.py`
  (the transcript event handler).

Python's module-global mutable caches and the DynamoDB table are made
explicit as a state record threaded through the functions; AWS service
calls are modelled by their observable effects (the Chime task-start
request and the Kinesis `put_record` call).  Fallible dictionary accesses
and timestamp parsing (`KeyError` / `ValueError`, which abort the
invocation) are modelled with `Option`.
-/

namespace LCA

/-- A JSON-decoded Python value, as needed for the `isCaller` field of the
voice-tone event (the source compares it with `!= True` under Python
equality semantics). -/
inductive PyVal where
  | boolVal (b : Bool)
  | intVal (n : Int)
  | floatVal (q : ℚ)
  | strVal (s : String)
  | noneVal
  deriving DecidableEq

/-- Python `x == True`.  In Python, `True == 1` and `True == 1.0`, so the
numbers `1` and `1.0` compare equal to `True`; every string, `None`, and
every other number does not. -/
def pyEqTrue : PyVal → Bool
  | .boolVal b => b
  | .intVal n => n == 1
  | .floatVal q => q == 1
  | .strVal _ => false
  | .noneVal => false

/-- The JSON document stored in the `CallData` attribute of a call record.
The source does `json.loads(callRecord['CallData'])` and then reads the
`callStreamingStartTime` key; JSON (de)serialization is abstracted to
structured access. -/
structure CallData where
  callStreamingStartTime : String
  deriving DecidableEq

/-- A DynamoDB item as used by the voice-tone processor.  Attributes absent
from an item are `none`; reading an absent attribute raises `KeyError` in
Python, modelled by `Option`. -/
structure TableItem where
  voiceToneAnalysisTaskId : Option String := Option.none
  callId : Option String := Option.none
  callData : Option CallData := Option.none
  deriving DecidableEq

/-- The mutable state of the voice-tone processor module: the two
process-local caches (`voiceTaskCache`, `callDetailCache`, module globals
in the source) and the durable DynamoDB table, keyed by `(PK, SK)`.
`put_item` replaces the item at a key; modelling the table as an
association list with insertion by `cons` gives the same lookup
behaviour. -/
structure VTState where
  voiceTaskCache : List (String × String)
  callDetailCache : List (String × TableItem)
  dynamoTable : List ((String × String) × TableItem)
  deriving DecidableEq

/-- `get_call_record(callId)`: cache-first read of a call record; on a
cache miss, `get_item` with `PK = "cd#" + callId`, `SK = "BOTH"`, caching
the item.  A response without an `Item` raises `KeyError` (`none`). -/
def get_call_record (st : VTState) (callId : String) :
    Option (TableItem × VTState) :=
  match st.callDetailCache.lookup callId with
  | some item => some (item, st)
  | Option.none =>
    let pk := "cd#" ++ callId
    let sk := "BOTH"
    match st.dynamoTable.lookup (pk, sk) with
    | some item =>
        some (item, { st with callDetailCache := (callId, item) :: st.callDetailCache })
    | Option.none => Option.none

/-- `put_voice_task(voiceToneAnalysisTaskId, callId)`: `put_item` with
`PK = "vta#" + taskId` and `SK = 'VTA'` (the local `sk = callId` binding
in the source is dead code — the written item's `SK` is the literal
`'VTA'`), then record the mapping in the process-local cache. -/
def put_voice_task (st : VTState) (voiceToneAnalysisTaskId callId : String) :
    VTState :=
  let pk := "vta#" ++ voiceToneAnalysisTaskId
  let item : TableItem :=
    { voiceToneAnalysisTaskId := some voiceToneAnalysisTaskId
      callId := some callId }
  { st with
    dynamoTable := ((pk, "VTA"), item) :: st.dynamoTable
    voiceTaskCache := (voiceToneAnalysisTaskId, callId) :: st.voiceTaskCache }

/-- `get_callId_for_voiceTask(voiceToneAnalysisTaskId)`: cache-first; on a
cache miss, `get_item` with `PK = "vta#" + taskId`, `SK = 'VTA'`, read the
item's `CallId` attribute and cache it.  Any missing item or attribute is
a `KeyError` (`none`). -/
def get_callId_for_voiceTask (st : VTState) (voiceToneAnalysisTaskId : String) :
    Option (String × VTState) :=
  match st.voiceTaskCache.lookup voiceToneAnalysisTaskId with
  | some callId => some (callId, st)
  | Option.none =>
    let pk := "vta#" ++ voiceToneAnalysisTaskId
    match st.dynamoTable.lookup (pk, "VTA") with
    | some item =>
      match item.callId with
      | some callId =>
          some (callId,
            { st with voiceTaskCache :=
                (voiceToneAnalysisTaskId, callId) :: st.voiceTaskCache })
      | Option.none => Option.none
    | Option.none => Option.none

/-! ### Python `datetime.strptime` with format `'%Y-%m-%dT%H:%M:%S.%fZ'`

The source parses the call start and segment start/end timestamps with
`datetime.datetime.strptime(s, '%Y-%m-%dT%H:%M:%S.%fZ')` and subtracts the
resulting datetimes; `timedelta.total_seconds()` is exact calendar
arithmetic over year/month/day/hour/minute/second/microsecond, via
`date.toordinal`.  We embed the parser (CPython `_strptime`: `%Y` is
exactly four digits, `%m %d %H %M %S` are one or two digits, `%f` is one
to six digits zero-padded on the right) and proleptic-Gregorian ordinal
arithmetic. -/

/-- A parsed `datetime.datetime` value (naive, as produced by `strptime`). -/
structure PyDateTime where
  year : Nat
  month : Nat
  day : Nat
  hour : Nat
  minute : Nat
  second : Nat
  microsecond : Nat
  deriving DecidableEq

/-- Gregorian leap year, as in CPython `datetime._is_leap`. -/
def isLeapYear (y : Nat) : Bool :=
  y % 4 == 0 && (y % 100 != 0 || y % 400 == 0)

/-- Days in a month, as in CPython `datetime._days_in_month`. -/
def daysInMonth (y m : Nat) : Nat :=
  if m == 2 then (if isLeapYear y then 29 else 28)
  else if m == 4 || m == 6 || m == 9 || m == 11 then 30
  else 31

/-- Days before January 1st of year `y`, as in CPython
`datetime._days_before_year`. -/
def daysBeforeYear (y : Nat) : Nat :=
  let p := y - 1
  365 * p + p / 4 - p / 100 + p / 400

/-- Days in year `y` preceding the first of month `m`. -/
def daysBeforeMonth (y m : Nat) : Nat :=
  (List.range (m - 1)).foldl (fun acc i => acc + daysInMonth y (i + 1)) 0

/-- `date(y, m, d).toordinal()`: day number counting from
0001-01-01 = day 1. -/
def toordinal (y m d : Nat) : Nat :=
  daysBeforeYear y + daysBeforeMonth y m + d

/-- Microseconds of a datetime from the epoch of `toordinal`; datetime
subtraction (`timedelta`) is the difference of these counts. -/
def totalMicroseconds (dt : PyDateTime) : Int :=
  ((toordinal dt.year dt.month dt.day * 86400
      + dt.hour * 3600 + dt.minute * 60 + dt.second) * 1000000
    + dt.microsecond : Nat)

/-- Value of an ASCII digit. -/
def digitVal (c : Char) : Option Nat :=
  if c.isDigit then some (c.toNat - 48) else Option.none

/-- Consume exactly `k` digits, most significant first. -/
def readFixedDigitsAux : Nat → Nat → List Char → Option (Nat × List Char)
  | acc, 0, cs => some (acc, cs)
  | _, _ + 1, [] => Option.none
  | acc, k + 1, c :: cs =>
    match digitVal c with
    | some d => readFixedDigitsAux (10 * acc + d) k cs
    | Option.none => Option.none

/-- Consume exactly `k` digits. -/
def readFixedDigits (k : Nat) (cs : List Char) : Option (Nat × List Char) :=
  readFixedDigitsAux 0 k cs

/-- Greedily consume up to `k` digits, returning the value, the number of
digits consumed and the rest. -/
def readUpToDigitsAux : Nat → Nat → Nat → List Char → Nat × Nat × List Char
  | acc, cnt, 0, cs => (acc, cnt, cs)
  | acc, cnt, k + 1, cs =>
    match cs with
    | c :: rest =>
      match digitVal c with
      | some d => readUpToDigitsAux (10 * acc + d) (cnt + 1) k rest
      | Option.none => (acc, cnt, cs)
    | [] => (acc, cnt, cs)

/-- One to `k` digits (CPython `_strptime` `\d{1,k}` patterns). -/
def readVarDigits (k : Nat) (cs : List Char) : Option (Nat × List Char) :=
  match readUpToDigitsAux 0 0 k cs with
  | (v, cnt, rest) => if cnt = 0 then Option.none else some (v, rest)

/-- `%f`: one to six digits, zero-padded on the right to microseconds. -/
def readFracDigits (cs : List Char) : Option (Nat × List Char) :=
  match readUpToDigitsAux 0 0 6 cs with
  | (v, cnt, rest) =>
    if cnt = 0 then Option.none else some (v * 10 ^ (6 - cnt), rest)

/-- Expect a literal character. -/
def expectChar (c : Char) : List Char → Option (List Char)
  | x :: rest => if x = c then some rest else Option.none
  | [] => Option.none

/-- Validation applied by `strptime`: no trailing input, and the field
ranges enforced by the `datetime` constructor (year ≥ 1, month 1..12,
day 1..days-in-month, hour ≤ 23, minute ≤ 59, second ≤ 59). -/
def chkRanges (y mo d h mi sec us : Nat) (rest : List Char) :
    Option PyDateTime :=
  if rest.isEmpty ∧ 1 ≤ y ∧ 1 ≤ mo ∧ mo ≤ 12 ∧ 1 ≤ d ∧ d ≤ daysInMonth y mo
      ∧ h ≤ 23 ∧ mi ≤ 59 ∧ sec ≤ 59 then
    some { year := y, month := mo, day := d, hour := h, minute := mi,
           second := sec, microsecond := us }
  else Option.none

/-- Parse the time-of-day / fraction tail `HH:MM:SS.ffffffZ`. -/
def parseTimeTail (y mo d : Nat) (cs : List Char) : Option PyDateTime :=
  match readVarDigits 2 cs with
  | Option.none => Option.none
  | some ph =>
  match expectChar ':' ph.2 with
  | Option.none => Option.none
  | some cs4 =>
  match readVarDigits 2 cs4 with
  | Option.none => Option.none
  | some pmi =>
  match expectChar ':' pmi.2 with
  | Option.none => Option.none
  | some cs5 =>
  match readVarDigits 2 cs5 with
  | Option.none => Option.none
  | some psec =>
  match expectChar '.' psec.2 with
  | Option.none => Option.none
  | some cs6 =>
  match readFracDigits cs6 with
  | Option.none => Option.none
  | some pus =>
  match expectChar 'Z' pus.2 with
  | Option.none => Option.none
  | some cs7 => chkRanges y mo d ph.1 pmi.1 psec.1 pus.1 cs7

/-- `datetime.datetime.strptime(s, '%Y-%m-%dT%H:%M:%S.%fZ')`, returning
`none` where Python raises `ValueError` (pattern mismatch, trailing input,
or field values rejected by the `datetime` constructor). -/
def strptime_iso (s : String) : Option PyDateTime :=
  match readFixedDigits 4 s.toList with
  | Option.none => Option.none
  | some py =>
  match expectChar '-' py.2 with
  | Option.none => Option.none
  | some cs1 =>
  match readVarDigits 2 cs1 with
  | Option.none => Option.none
  | some pmo =>
  match expectChar '-' pmo.2 with
  | Option.none => Option.none
  | some cs2 =>
  match readVarDigits 2 cs2 with
  | Option.none => Option.none
  | some pd =>
  match expectChar 'T' pd.2 with
  | Option.none => Option.none
  | some cs3 => parseTimeTail py.1 pmo.1 pd.1 cs3

/-! ### The voice-tone `lambda_handler` -/

/-- Python `str.upper()` on one character (ASCII case mapping, which is
all the voice-tone labels need). -/
def pyUpperChar (c : Char) : Char :=
  if 'a' ≤ c ∧ c ≤ 'z' then Char.ofNat (c.toNat - 32) else c

/-- Python `s.upper()`. -/
def pyUpper (s : String) : String := String.mk (s.data.map pyUpperChar)

/-- Python `s[n:]`: drop the first `n` code points. -/
def pySlice (s : String) (n : Nat) : String := String.mk (s.data.drop n)

/-- `detail.voiceToneAnalysisDetails.currentAverageVoiceTone` of the
inbound EventBridge event. -/
structure CurrentAverageVoiceTone where
  voiceToneLabel : String
  startTime : String
  endTime : String
  deriving DecidableEq

structure VoiceToneAnalysisDetails where
  currentAverageVoiceTone : CurrentAverageVoiceTone
  deriving DecidableEq

/-- The `detail` member of the inbound EventBridge event. -/
structure EventDetail where
  detailStatus : String
  voiceConnectorId : String
  transactionId : String
  callId : String
  taskId : String
  isCaller : PyVal
  voiceToneAnalysisDetails : VoiceToneAnalysisDetails
  deriving DecidableEq

/-- The inbound EventBridge event (`event['id']` plus `event['detail']`). -/
structure VTEvent where
  id : String
  detail : EventDetail
  deriving DecidableEq

/-- The nested `UtteranceEvent` object of the emitted stream record.
(`isPartialFlag` embeds the JSON key `isPartial`.) -/
structure UtteranceEventRec where
  utteranceId : String
  participantRole : String
  isPartialFlag : Bool
  transcript : String
  sentiment : String
  beginOffsetMillis : ℚ
  endOffsetMillis : ℚ
  deriving DecidableEq

/-- The JSON object `putObj` emitted onto the Kinesis stream. -/
structure PutObj where
  eventType : String
  callId : String
  utteranceEvent : UtteranceEventRec
  createdAt : String
  updatedAt : String
  deriving DecidableEq

/-- One `kinesis.put_record` call: stream name, data (the JSON object,
serialization abstracted) and partition key. -/
structure KinesisRecord where
  streamName : String
  data : PutObj
  partitionKey : String
  deriving DecidableEq

/-- One `chime.start_voice_tone_analysis_task` call. -/
structure StartTaskCall where
  voiceConnectorId : String
  transactionId : String
  languageCode : String
  clientRequestToken : String
  deriving DecidableEq

/-- Observable external effects of one voice-tone handler invocation. -/
structure Effects where
  startedTasks : List StartTaskCall
  kinesisRecords : List KinesisRecord
  deriving DecidableEq

/-- Environment of one invocation: configuration plus the responses of the
non-deterministic externals (the task id Chime returns for
`start_voice_tone_analysis_task`, and `datetime.now()` already formatted
with `'%Y-%m-%dT%H:%M:%SZ'`). -/
structure Env where
  kinesisStreamName : String
  chimeTaskId : String
  nowStr : String
  deriving DecidableEq

/-- The `detailStatus == 'AnalyticsReady'` branch: its effect on the
module state (`put_voice_task` of the Chime-returned task id against the
event's call id). -/
def stateAfterStart (env : Env) (detail : EventDetail) (st : VTState) :
    VTState :=
  if detail.detailStatus = "AnalyticsReady" then
    put_voice_task st env.chimeTaskId detail.callId
  else st

/-- The `detailStatus == 'AnalyticsReady'` branch: its external effect,
the `start_voice_tone_analysis_task` call with `LanguageCode='en-US'` and
`ClientRequestToken=detail['callId']`. -/
def startEffects (detail : EventDetail) : List StartTaskCall :=
  if detail.detailStatus = "AnalyticsReady" then
    [{ voiceConnectorId := detail.voiceConnectorId
       transactionId := detail.transactionId
       languageCode := "en-US"
       clientRequestToken := detail.callId }]
  else []

/-- The `detailStatus == 'VoiceToneAnalysisSuccessful'` branch.  Mirrors
the source line by line: resolve the call id for the task (called twice in
the source — the second result feeds `get_call_record`), decode the call
record's `CallData`, parse the three timestamps, compute
`endMillis = (segmentEndTime - callStartTime).total_seconds() * 1000` and
`startMillis = endMillis - 5000` (the computation from the true segment
start time is commented out in the source), build `putObj` and put it on
the stream partitioned by the call id.  Returns the updated module state
and the emitted record; `none` models an unhandled `KeyError`/`ValueError`
aborting the invocation. -/
def handleVoiceToneSuccess (env : Env) (event : VTEvent) (st : VTState) :
    Option (VTState × KinesisRecord) :=
  let detail := event.detail
  match get_callId_for_voiceTask st detail.taskId with
  | Option.none => Option.none
  | some r1 =>
  match get_callId_for_voiceTask r1.2 detail.taskId with
  | Option.none => Option.none
  | some r2 =>
  match get_call_record r2.2 r2.1 with
  | Option.none => Option.none
  | some r3 =>
  match r3.1.callData with
  | Option.none => Option.none
  | some callData =>
  match strptime_iso callData.callStreamingStartTime with
  | Option.none => Option.none
  | some callStartTime =>
  let callId := r1.1
  let timestampStr := env.nowStr
  let participant :=
    if !(pyEqTrue detail.isCaller) then "CALLER_VOICE_SENTIMENT"
    else "AGENT_VOICE_SENTIMENT"
  let sentiment :=
    pyUpper detail.voiceToneAnalysisDetails.currentAverageVoiceTone.voiceToneLabel
  match strptime_iso detail.voiceToneAnalysisDetails.currentAverageVoiceTone.startTime with
  | Option.none => Option.none
  | some _segmentStartTime =>
  match strptime_iso detail.voiceToneAnalysisDetails.currentAverageVoiceTone.endTime with
  | Option.none => Option.none
  | some segmentEndTime =>
  let endMillis : ℚ :=
    ((totalMicroseconds segmentEndTime - totalMicroseconds callStartTime : Int) : ℚ)
      / 1000000 * 1000
  let startMillis := endMillis - 5000
  let putObj : PutObj :=
    { eventType := "ADD_TRANSCRIPT_SEGMENT"
      callId := callId
      utteranceEvent :=
        { utteranceId := pySlice event.id 3
          participantRole := participant
          isPartialFlag := false
          transcript := "voice tone"
          sentiment := sentiment
          beginOffsetMillis := startMillis
          endOffsetMillis := endMillis }
      createdAt := timestampStr
      updatedAt := timestampStr }
  some (r3.2,
    { streamName := env.kinesisStreamName
      data := putObj
      partitionKey := callId })

/-- `lambda_handler(event, context)` of the voice-tone processor: run the
`AnalyticsReady` branch, then the `VoiceToneAnalysisSuccessful` branch
(the source uses two consecutive `if` statements, not `elif`).  Returns
the final module state together with the external effects; the Python
function itself returns `None`. -/
def lambda_handler (env : Env) (event : VTEvent) (st : VTState) :
    Option (VTState × Effects) :=
  let detail := event.detail
  let st1 := stateAfterStart env detail st
  let effStart := startEffects detail
  if detail.detailStatus = "VoiceToneAnalysisSuccessful" then
    (handleVoiceToneSuccess env event st1).map
      (fun r => (r.1, { startedTasks := effStart, kinesisRecords := [r.2] }))
  else
    some (st1, { startedTasks := effStart, kinesisRecords := [] })

/-! ### The transcript event handler (`call_event_processor`) -/

/-- The two mutation functions imported from `event_processor`; their
bodies live outside this core, so they are represented by name only. -/
inductive MutationFunction where
  | execute_process_transcribe_event_api_mutation
  | execute_process_contact_lens_event_api_mutation
  deriving DecidableEq

/-- `MUTATION_FUNCTION_MAPPING`: the audio-source dispatch table. -/
def MUTATION_FUNCTION_MAPPING : List (String × MutationFunction) :=
  [("Demo Asterisk PBX Server",
      .execute_process_transcribe_event_api_mutation),
   ("Chime Voice Connector (SIPREC)",
      .execute_process_transcribe_event_api_mutation),
   ("Genesys Cloud Audiohook Web Socket",
      .execute_process_transcribe_event_api_mutation),
   ("Amazon Connect Contact Lens",
      .execute_process_contact_lens_event_api_mutation)]

/-- `MUTATION_FUNCTION_NAME = MUTATION_FUNCTION_MAPPING.get(CALL_AUDIO_SOURCE)`
where `CALL_AUDIO_SOURCE = getenv("CALL_AUDIO_SOURCE")` may be unset
(`None`, which is not a key, so `dict.get` yields its default `None`). -/
def mutation_function_name (callAudioSource : Option String) :
    Option MutationFunction :=
  callAudioSource.bind (fun s => MUTATION_FUNCTION_MAPPING.lookup s)

/-- One element of the batch processor's `results["successes"]` list; each
nests its own per-record `successes` (items may be falsy — `if item:` in
the source — modelled as `Option`) and `errors`. -/
structure ResultItem (α ε : Type) where
  successes : List (Option α)
  errors : List ε
  deriving DecidableEq

/-- `processor.results`: `{"successes": [...], "errors": [...]}`. -/
structure ProcessorResults (α ε : Type) where
  successes : List (ResultItem α ε)
  errors : List ε
  deriving DecidableEq

/-- `update_state(event, event_processor_results)`.  Modelled from the
spec: `TranscriptStateManager` (module `state_manager`, which is not part
of this core's sources) folds each successful item into its state (spec
§4.3 "fold each into a running state object"); it is abstracted as an
initial state `smInit` (derived from the event) and a fold `smUpdate`,
the final `state_manager.state` being the fold over all nested success
items.  The loop structure — outer loop over `successes`, inner loop over
each result's nested `successes`, skipping falsy items, errors never
consulted — is the source's. -/
def update_state {σ α ε : Type} (smInit : σ) (smUpdate : σ → α → σ)
    (event_processor_results : ProcessorResults α ε) : σ :=
  event_processor_results.successes.foldl
    (fun s result =>
      result.successes.foldl
        (fun s item =>
          match item with
          | some it => smUpdate s it
          | Option.none => s)
        s)
    smInit

/-- Observable outcome of one transcript-handler invocation: the returned
`{"state": outgoing_state}` value and the errors passed to
`LOGGER.error` (each error is logged, re-raised and immediately caught —
never escaping the loop). -/
structure HandlerResult (σ ε : Type) where
  state : σ
  loggedErrors : List ε
  deriving DecidableEq

/-- `handler(event, context)` of the call event processor, given the batch
processor's results (the processor itself is an external collaborator):
log every error in `results["errors"]` without aborting, then compute the
outgoing tumbling-window state from the successes and return
`{"state": outgoing_state}`. -/
def handler {σ α ε : Type} (smInit : σ) (smUpdate : σ → α → σ)
    (event_processor_results : ProcessorResults α ε) : HandlerResult σ ε :=
  let logged := event_processor_results.errors
  let outgoing_state := update_state smInit smUpdate event_processor_results
  { state := outgoing_state, loggedErrors := logged }

/-! ### Concrete inputs

A happy-path configuration matching the spec's scenario: the durable
table holds the task-to-call mapping written for task `"task1"` against
call `"call1"` and a call record whose `CallData` carries
`callStreamingStartTime = 2024-01-01T00:00:00.000Z`; the inbound event is
`VoiceToneAnalysisSuccessful` for that task with segment end time
`2024-01-01T00:00:10.000Z`. -/

def itemVTA : TableItem :=
  { voiceToneAnalysisTaskId := some "task1", callId := some "call1" }

def itemCR : TableItem :=
  { callData := some { callStreamingStartTime := "2024-01-01T00:00:00.000Z" } }

def stHappy : VTState :=
  { voiceTaskCache := []
    callDetailCache := []
    dynamoTable := [(("vta#task1", "VTA"), itemVTA), (("cd#call1", "BOTH"), itemCR)] }

def envHappy : Env :=
  { kinesisStreamName := "lca-stream"
    chimeTaskId := "task1"
    nowStr := "2024-01-01T00:01:00Z" }

def evHappy : VTEvent :=
  { id := "id-abc123"
    detail :=
      { detailStatus := "VoiceToneAnalysisSuccessful"
        voiceConnectorId := "vc1"
        transactionId := "tx1"
        callId := "call1"
        taskId := "task1"
        isCaller := .boolVal true
        voiceToneAnalysisDetails :=
          { currentAverageVoiceTone :=
              { voiceToneLabel := "neutral"
                startTime := "2024-01-01T00:00:05.000Z"
                endTime := "2024-01-01T00:00:10.000Z" } } } }

/-- The record the happy-path invocation puts on the stream. -/
def recHappy : KinesisRecord :=
  { streamName := "lca-stream"
    partitionKey := "call1"
    data :=
      { eventType := "ADD_TRANSCRIPT_SEGMENT"
        callId := "call1"
        utteranceEvent :=
          { utteranceId := "abc123"
            participantRole := "AGENT_VOICE_SENTIMENT"
            isPartialFlag := false
            transcript := "voice tone"
            sentiment := "NEUTRAL"
            beginOffsetMillis := 5000
            endOffsetMillis := 10000 }
        createdAt := "2024-01-01T00:01:00Z"
        updatedAt := "2024-01-01T00:01:00Z" } }

/-- The happy-path module state after the invocation: both lookups fell
through to the durable table and were cached. -/
def stHappyOut : VTState :=
  { stHappy with
    voiceTaskCache := [("task1", "call1")]
    callDetailCache := [("call1", itemCR)] }

def effHappy : Effects :=
  { startedTasks := [], kinesisRecords := [recHappy] }

/-! ### Structure of every emitted record -/

/-- Every successful run of the `VoiceToneAnalysisSuccessful` branch emits
one record whose shape is fixed: stream and timestamps from the
environment, call id resolved from the task id, the placeholder
transcript, the participant-role conditional, the upper-cased tone label,
and offsets `(endMillis - 5000, endMillis)` for some `endMillis`. -/
theorem handleVoiceToneSuccess_spec {env : Env} {event : VTEvent}
    {st st' : VTState} {rec : KinesisRecord}
    (h : handleVoiceToneSuccess env event st = some (st', rec)) :
    ∃ r1 : String × VTState, ∃ endMillis : ℚ,
      get_callId_for_voiceTask st event.detail.taskId = some r1 ∧
      rec =
        { streamName := env.kinesisStreamName
          partitionKey := r1.1
          data :=
            { eventType := "ADD_TRANSCRIPT_SEGMENT"
              callId := r1.1
              utteranceEvent :=
                { utteranceId := pySlice event.id 3
                  participantRole :=
                    if !(pyEqTrue event.detail.isCaller) then
                      "CALLER_VOICE_SENTIMENT"
                    else "AGENT_VOICE_SENTIMENT"
                  isPartialFlag := false
                  transcript := "voice tone"
                  sentiment :=
                    pyUpper event.detail.voiceToneAnalysisDetails.currentAverageVoiceTone.voiceToneLabel
                  beginOffsetMillis := endMillis - 5000
                  endOffsetMillis := endMillis }
              createdAt := env.nowStr
              updatedAt := env.nowStr } } := by
  unfold handleVoiceToneSuccess at h
  dsimp only at h
  split at h
  · exact Option.noConfusion h
  next r1 h1 =>
  split at h
  · exact Option.noConfusion h
  next r2 h2 =>
  split at h
  · exact Option.noConfusion h
  next r3 h3 =>
  split at h
  · exact Option.noConfusion h
  next callData h4 =>
  split at h
  · exact Option.noConfusion h
  next callStartTime h5 =>
  split at h
  · exact Option.noConfusion h
  next segStart h6 =>
  split at h
  · exact Option.noConfusion h
  next segEnd h7 =>
  refine ⟨r1, ((totalMicroseconds segEnd - totalMicroseconds callStartTime : Int) : ℚ)
      / 1000000 * 1000, h1, ?_⟩
  injection h with h
  injection h with hst hrec
  exact hrec.symm

/-- Lift of `handleVoiceToneSuccess_spec` to `lambda_handler`: every
record in the emitted effects comes from the successful branch, run on the
state left by the `AnalyticsReady` branch. -/
theorem lambda_handler_emit {env : Env} {event : VTEvent}
    {st st' : VTState} {eff : Effects} {rec : KinesisRecord}
    (h : lambda_handler env event st = some (st', eff))
    (hrec : rec ∈ eff.kinesisRecords) :
    ∃ r1 : String × VTState, ∃ endMillis : ℚ,
      get_callId_for_voiceTask (stateAfterStart env event.detail st)
          event.detail.taskId = some r1 ∧
      rec =
        { streamName := env.kinesisStreamName
          partitionKey := r1.1
          data :=
            { eventType := "ADD_TRANSCRIPT_SEGMENT"
              callId := r1.1
              utteranceEvent :=
                { utteranceId := pySlice event.id 3
                  participantRole :=
                    if !(pyEqTrue event.detail.isCaller) then
                      "CALLER_VOICE_SENTIMENT"
                    else "AGENT_VOICE_SENTIMENT"
                  isPartialFlag := false
                  transcript := "voice tone"
                  sentiment :=
                    pyUpper event.detail.voiceToneAnalysisDetails.currentAverageVoiceTone.voiceToneLabel
                  beginOffsetMillis := endMillis - 5000
                  endOffsetMillis := endMillis }
              createdAt := env.nowStr
              updatedAt := env.nowStr } } := by
  unfold lambda_handler at h
  dsimp only at h
  split at h
  · rw [Option.map_eq_some'] at h
    obtain ⟨r, hr, hpair⟩ := h
    cases hpair
    simp only [List.mem_singleton] at hrec
    subst hrec
    exact handleVoiceToneSuccess_spec hr
  · injection h with h
    cases h
    simp only [List.not_mem_nil] at hrec

/-! ### Further concrete inputs -/

/-- The same call, but the reported segment ends three seconds after
streaming start: the first voice-tone window of a short call. -/
def evShortSegment : VTEvent :=
  { evHappy with
    detail :=
      { evHappy.detail with
        voiceToneAnalysisDetails :=
          { currentAverageVoiceTone :=
              { voiceToneLabel := "neutral"
                startTime := "2024-01-01T00:00:00.000Z"
                endTime := "2024-01-01T00:00:03.000Z" } } } }

/-- The happy-path event with the JSON-decoded value `1` (a Python `int`,
not a `bool`) in the `isCaller` field. -/
def evIntCaller : VTEvent :=
  { evHappy with
    detail := { evHappy.detail with isCaller := .intVal 1 } }

/-- The happy-path event with a `detailStatus` the handler does not
recognize. -/
def evOtherStatus : VTEvent :=
  { evHappy with
    detail := { evHappy.detail with detailStatus := "VoiceToneAnalysisFailed" } }

/-- The record emitted for `evShortSegment`: the five-second window ends
3000 ms after call start, so `startMillis = 3000 - 5000 = -2000`. -/
def recShort : KinesisRecord :=
  { streamName := "lca-stream"
    partitionKey := "call1"
    data :=
      { eventType := "ADD_TRANSCRIPT_SEGMENT"
        callId := "call1"
        utteranceEvent :=
          { utteranceId := "abc123"
            participantRole := "AGENT_VOICE_SENTIMENT"
            isPartialFlag := false
            transcript := "voice tone"
            sentiment := "NEUTRAL"
            beginOffsetMillis := -2000
            endOffsetMillis := 3000 }
        createdAt := "2024-01-01T00:01:00Z"
        updatedAt := "2024-01-01T00:01:00Z" } }

def effShort : Effects :=
  { startedTasks := [], kinesisRecords := [recShort] }

/-! ### Evaluated runs on the concrete inputs

The `Rat` arithmetic operations are `@[irreducible]`, so the concrete
invocations are evaluated in layers: the string/state computations by
`decide`, the rational arithmetic by `norm_num`. -/

theorem strptime_t0 : strptime_iso "2024-01-01T00:00:00.000Z"
    = some ⟨2024, 1, 1, 0, 0, 0, 0⟩ := by decide

theorem strptime_t3 : strptime_iso "2024-01-01T00:00:03.000Z"
    = some ⟨2024, 1, 1, 0, 0, 3, 0⟩ := by decide

theorem strptime_t5 : strptime_iso "2024-01-01T00:00:05.000Z"
    = some ⟨2024, 1, 1, 0, 0, 5, 0⟩ := by decide

theorem strptime_t10 : strptime_iso "2024-01-01T00:00:10.000Z"
    = some ⟨2024, 1, 1, 0, 0, 10, 0⟩ := by decide

/-- The state after the first (cache-missing) call-id resolution. -/
def stMid : VTState := { stHappy with voiceTaskCache := [("task1", "call1")] }

theorem happy_get1 :
    get_callId_for_voiceTask stHappy "task1" = some ("call1", stMid) := by decide

theorem happy_get2 :
    get_callId_for_voiceTask stMid "task1" = some ("call1", stMid) := by decide

theorem happy_get3 :
    get_call_record stMid "call1" = some (itemCR, stHappyOut) := by decide

theorem status_ne_ready :
    ("VoiceToneAnalysisSuccessful" : String) ≠ "AnalyticsReady" := by decide

theorem slice_happy_id : pySlice "id-abc123" 3 = "abc123" := by decide

theorem upper_neutral : pyUpper "neutral" = "NEUTRAL" := by decide

theorem tm0 : totalMicroseconds ⟨2024, 1, 1, 0, 0, 0, 0⟩
    = 63839750400000000 := by decide

theorem tm3 : totalMicroseconds ⟨2024, 1, 1, 0, 0, 3, 0⟩
    = 63839750403000000 := by decide

theorem tm10 : totalMicroseconds ⟨2024, 1, 1, 0, 0, 10, 0⟩
    = 63839750410000000 := by decide

/-- The full happy-path invocation. -/
theorem happy_run :
    lambda_handler envHappy evHappy stHappy = some (stHappyOut, effHappy) := by
  rw [lambda_handler, handleVoiceToneSuccess]
  norm_num [stateAfterStart, startEffects, evHappy, envHappy, status_ne_ready,
    slice_happy_id, upper_neutral, happy_get1, happy_get2, happy_get3,
    strptime_t0, strptime_t5, strptime_t10, itemCR, tm0, tm10,
    stHappyOut, effHappy, recHappy, pyEqTrue]

/-- The short-segment invocation: same state, segment end 3 s after call
start. -/
theorem shortSegment_run :
    lambda_handler envHappy evShortSegment stHappy
      = some (stHappyOut, effShort) := by
  rw [lambda_handler, handleVoiceToneSuccess]
  norm_num [stateAfterStart, startEffects, evShortSegment, evHappy, envHappy,
    status_ne_ready, slice_happy_id, upper_neutral, happy_get1, happy_get2,
    happy_get3, strptime_t0, strptime_t3, itemCR, tm0, tm3,
    stHappyOut, effShort, recShort, pyEqTrue]

/-- The invocation with `isCaller = 1` (Python `int`): since `1 == True`
in Python, the emitted record is the same as on the happy path. -/
theorem intCaller_run :
    lambda_handler envHappy evIntCaller stHappy
      = some (stHappyOut, effHappy) := by
  rw [lambda_handler, handleVoiceToneSuccess]
  norm_num [stateAfterStart, startEffects, evIntCaller, evHappy, envHappy,
    status_ne_ready, slice_happy_id, upper_neutral, happy_get1, happy_get2,
    happy_get3, strptime_t0, strptime_t5, strptime_t10, itemCR, tm0, tm10,
    stHappyOut, effHappy, recHappy, pyEqTrue]

/-! ### Claims -/

/-- C1 (counterexample): with call start `2024-01-01T00:00:00.000Z` and
segment end `2024-01-01T00:00:03.000Z` — both parse successfully — the
emitted `BeginOffsetMillis` is `-2000`, which is negative: the claimed
non-negativity of the offsets fails. -/
theorem voiceTone_beginOffset_negative_cex :
    (lambda_handler envHappy evShortSegment stHappy).map
        (fun r => r.2.kinesisRecords.map
          (fun k => k.data.utteranceEvent.beginOffsetMillis))
      = some [(-2000 : ℚ)]
    ∧ ¬ (0 : ℚ) ≤ (-2000 : ℚ) := by
  refine ⟨?_, by norm_num⟩
  rw [shortSegment_run]
  rfl

/-- C1 (amended): for every record emitted by the voice-tone handler,
`EndOffsetMillis ≥ BeginOffsetMillis`; but `BeginOffsetMillis` (and hence
non-negativity of the offsets) is not guaranteed, since
`startMillis = endMillis - 5000` may be negative. -/
theorem voiceTone_end_ge_begin (env : Env) (event : VTEvent)
    (st st' : VTState) (eff : Effects) (rec : KinesisRecord)
    (h : lambda_handler env event st = some (st', eff))
    (hrec : rec ∈ eff.kinesisRecords) :
    rec.data.utteranceEvent.beginOffsetMillis
      ≤ rec.data.utteranceEvent.endOffsetMillis := by
  obtain ⟨r1, endMillis, -, hrec_eq⟩ := lambda_handler_emit h hrec
  subst hrec_eq
  dsimp only
  linarith

/-- C1 (witness): the hypotheses of `voiceTone_end_ge_begin` hold at the
happy-path input. -/
theorem voiceTone_end_ge_begin_witness :
    lambda_handler envHappy evHappy stHappy = some (stHappyOut, effHappy)
      ∧ recHappy ∈ effHappy.kinesisRecords
      ∧ recHappy.data.utteranceEvent.beginOffsetMillis
          ≤ recHappy.data.utteranceEvent.endOffsetMillis :=
  ⟨happy_run, by simp [effHappy],
    voiceTone_end_ge_begin envHappy evHappy stHappy stHappyOut effHappy recHappy
      happy_run (by simp [effHappy])⟩

/-- C2: every transcript-segment record emitted by the voice-tone handler
has `EndOffsetMillis - BeginOffsetMillis = 5000` exactly, regardless of
the segment's true start time. -/
theorem voiceTone_fixed_window_5000 (env : Env) (event : VTEvent)
    (st st' : VTState) (eff : Effects) (rec : KinesisRecord)
    (h : lambda_handler env event st = some (st', eff))
    (hrec : rec ∈ eff.kinesisRecords) :
    rec.data.utteranceEvent.endOffsetMillis
        - rec.data.utteranceEvent.beginOffsetMillis = 5000 := by
  obtain ⟨r1, endMillis, -, hrec_eq⟩ := lambda_handler_emit h hrec
  subst hrec_eq
  dsimp only
  ring

/-- C2 (witness): the hypotheses of `voiceTone_fixed_window_5000` hold at
the happy-path input. -/
theorem voiceTone_fixed_window_5000_witness :
    lambda_handler envHappy evHappy stHappy = some (stHappyOut, effHappy)
      ∧ recHappy ∈ effHappy.kinesisRecords
      ∧ recHappy.data.utteranceEvent.endOffsetMillis
          - recHappy.data.utteranceEvent.beginOffsetMillis = 5000 :=
  ⟨happy_run, by simp [effHappy],
    voiceTone_fixed_window_5000 envHappy evHappy stHappy stHappyOut effHappy recHappy
      happy_run (by simp [effHappy])⟩

/-- C3: after `put_voice_task t c`, `get_callId_for_voiceTask t` returns
`c` — both when the process-local cache still holds the entry (state
unchanged) and when the cache is empty so the value is fetched from the
durable table (and re-cached). -/
theorem put_voice_task_get_roundtrip (st : VTState) (t c : String) :
    get_callId_for_voiceTask (put_voice_task st t c) t
        = some (c, put_voice_task st t c)
      ∧ get_callId_for_voiceTask
          { put_voice_task st t c with voiceTaskCache := [] } t
        = some (c, { put_voice_task st t c with voiceTaskCache := [(t, c)] }) := by
  constructor
  · simp [get_callId_for_voiceTask, put_voice_task, List.lookup]
  · simp [get_callId_for_voiceTask, put_voice_task, List.lookup]

/-- C4: on a `VoiceToneAnalysisSuccessful` event whose resolved call
record has `callStreamingStartTime = 2024-01-01T00:00:00.000Z` and whose
segment `endTime = 2024-01-01T00:00:10.000Z`, the emitted record has
`BeginOffsetMillis = 5000` and `EndOffsetMillis = 10000`. -/
theorem voiceTone_happy_scenario_offsets :
    lambda_handler envHappy evHappy stHappy = some (stHappyOut, effHappy)
      ∧ recHappy.data.utteranceEvent.beginOffsetMillis = 5000
      ∧ recHappy.data.utteranceEvent.endOffsetMillis = 10000 :=
  ⟨happy_run, rfl, rfl⟩

/-- C5: every configured audio-source label outside the four recognized
ones — including an unset `CALL_AUDIO_SOURCE` — resolves to no mutation
function (`none`), without raising. -/
theorem mutation_dispatch_unrecognized (src : Option String)
    (h : src ∉ [some "Demo Asterisk PBX Server",
                some "Chime Voice Connector (SIPREC)",
                some "Genesys Cloud Audiohook Web Socket",
                some "Amazon Connect Contact Lens"]) :
    mutation_function_name src = Option.none := by
  match src with
  | Option.none => rfl
  | some s =>
    simp only [List.mem_cons, List.not_mem_nil, or_false, not_or,
      Option.some.injEq] at h
    obtain ⟨h1, h2, h3, h4⟩ := h
    simp [mutation_function_name, MUTATION_FUNCTION_MAPPING, List.lookup,
      beq_eq_false_iff_ne.mpr h1, beq_eq_false_iff_ne.mpr h2,
      beq_eq_false_iff_ne.mpr h3, beq_eq_false_iff_ne.mpr h4]

/-- C5 (witness): the audio-source label `"Amazon Chime SDK Call
Analytics"` is not among the recognized four and resolves to `none`. -/
theorem mutation_dispatch_unrecognized_witness :
    (some "Amazon Chime SDK Call Analytics"
        ∉ [some "Demo Asterisk PBX Server",
           some "Chime Voice Connector (SIPREC)",
           some "Genesys Cloud Audiohook Web Socket",
           some "Amazon Connect Contact Lens"])
      ∧ mutation_function_name (some "Amazon Chime SDK Call Analytics")
          = Option.none :=
  ⟨by decide,
    mutation_dispatch_unrecognized (some "Amazon Chime SDK Call Analytics")
      (by decide)⟩

/-- C6: the transcript handler logs every element of the errors list
without aborting, and the returned `{"state": ...}` value is a function of
the successes only: changing the errors list leaves the state unchanged,
and a batch with one success and one error yields the state of the
successful fold alone together with a one-element errors list. -/
theorem transcript_handler_state_from_successes_only
    {σ α ε : Type} (smInit : σ) (smUpdate : σ → α → σ)
    (successes : List (ResultItem α ε)) (errors errors' : List ε)
    (it : α) (e : ε) :
    (handler smInit smUpdate { successes := successes, errors := errors }).state
        = (handler smInit smUpdate { successes := successes, errors := errors' }).state
      ∧ (handler smInit smUpdate
            { successes := successes, errors := errors }).loggedErrors = errors
      ∧ handler smInit smUpdate
            { successes := [{ successes := [some it], errors := [] }], errors := [e] }
          = { state := smUpdate smInit it, loggedErrors := [e] }
      ∧ (handler smInit smUpdate
            { successes := [{ successes := [some it], errors := [] }],
              errors := [e] }).loggedErrors.length = 1 :=
  ⟨rfl, rfl, rfl, rfl⟩

/-- C7: the call-record read uses partition key `"cd#" + callId` with sort
key `"BOTH"`, and the task-to-call mapping is written and read with
partition key `"vta#" + taskId` and sort key `"VTA"` (hypotheses: the
process-local caches miss, so the reads reach the durable table). -/
theorem dynamo_key_schema (st : VTState) (c t cid : String)
    (hc : st.callDetailCache.lookup c = Option.none)
    (ht : st.voiceTaskCache.lookup t = Option.none) :
    (get_call_record st c).map Prod.fst
        = st.dynamoTable.lookup ("cd#" ++ c, "BOTH")
      ∧ (put_voice_task st t cid).dynamoTable.lookup ("vta#" ++ t, "VTA")
        = some { voiceToneAnalysisTaskId := some t, callId := some cid }
      ∧ (get_callId_for_voiceTask st t).map Prod.fst
        = (st.dynamoTable.lookup ("vta#" ++ t, "VTA")).bind TableItem.callId := by
  refine ⟨?_, ?_, ?_⟩
  · simp only [get_call_record, hc]
    cases st.dynamoTable.lookup ("cd#" ++ c, "BOTH") <;> rfl
  · simp [put_voice_task, List.lookup]
  · simp only [get_callId_for_voiceTask, ht]
    cases st.dynamoTable.lookup ("vta#" ++ t, "VTA") with
    | none => rfl
    | some item =>
      dsimp only
      cases hci : item.callId <;> simp [Option.bind, hci]

/-- C7 (witness): the key schema at the concrete happy-path state (both
caches empty) with `callId = "call1"`, `taskId = "task1"`. -/
theorem dynamo_key_schema_witness :
    stHappy.callDetailCache.lookup "call1" = Option.none
      ∧ stHappy.voiceTaskCache.lookup "task1" = Option.none
      ∧ ((get_call_record stHappy "call1").map Prod.fst
            = stHappy.dynamoTable.lookup ("cd#" ++ "call1", "BOTH")
          ∧ (put_voice_task stHappy "task1" "call1").dynamoTable.lookup
              ("vta#" ++ "task1", "VTA")
            = some { voiceToneAnalysisTaskId := some "task1", callId := some "call1" }
          ∧ (get_callId_for_voiceTask stHappy "task1").map Prod.fst
            = (stHappy.dynamoTable.lookup ("vta#" ++ "task1", "VTA")).bind
                TableItem.callId) :=
  ⟨by decide, by decide,
    dynamo_key_schema stHappy "call1" "task1" "call1" (by decide) (by decide)⟩

/-- C8: every record emitted to the stream has
`EventType = "ADD_TRANSCRIPT_SEGMENT"`, a top-level `CallId` equal to the
call id resolved from the task id, an `UtteranceEvent` with
`isPartial = false` and the fixed placeholder transcript `"voice tone"`,
`CreatedAt`/`UpdatedAt` timestamps, and a stream partition key equal to
the call id. -/
theorem emitted_record_shape (env : Env) (event : VTEvent)
    (st st' : VTState) (eff : Effects) (rec : KinesisRecord)
    (h : lambda_handler env event st = some (st', eff))
    (hrec : rec ∈ eff.kinesisRecords) :
    rec.data.eventType = "ADD_TRANSCRIPT_SEGMENT"
      ∧ (get_callId_for_voiceTask (stateAfterStart env event.detail st)
            event.detail.taskId).map Prod.fst = some rec.data.callId
      ∧ rec.data.utteranceEvent.isPartialFlag = false
      ∧ rec.data.utteranceEvent.transcript = "voice tone"
      ∧ rec.data.createdAt = env.nowStr
      ∧ rec.data.updatedAt = env.nowStr
      ∧ rec.partitionKey = rec.data.callId
      ∧ rec.streamName = env.kinesisStreamName := by
  obtain ⟨r1, endMillis, hres, hrec_eq⟩ := lambda_handler_emit h hrec
  subst hrec_eq
  refine ⟨rfl, ?_, rfl, rfl, rfl, rfl, rfl, rfl⟩
  rw [hres]
  rfl

/-- C8 (witness): the hypotheses of `emitted_record_shape` hold at the
happy-path input. -/
theorem emitted_record_shape_witness :
    lambda_handler envHappy evHappy stHappy = some (stHappyOut, effHappy)
      ∧ recHappy ∈ effHappy.kinesisRecords
      ∧ (recHappy.data.eventType = "ADD_TRANSCRIPT_SEGMENT"
          ∧ (get_callId_for_voiceTask
                (stateAfterStart envHappy evHappy.detail stHappy)
                evHappy.detail.taskId).map Prod.fst = some recHappy.data.callId
          ∧ recHappy.data.utteranceEvent.isPartialFlag = false
          ∧ recHappy.data.utteranceEvent.transcript = "voice tone"
          ∧ recHappy.data.createdAt = envHappy.nowStr
          ∧ recHappy.data.updatedAt = envHappy.nowStr
          ∧ recHappy.partitionKey = recHappy.data.callId
          ∧ recHappy.streamName = envHappy.kinesisStreamName) :=
  ⟨happy_run, by simp [effHappy],
    emitted_record_shape envHappy evHappy stHappy stHappyOut effHappy recHappy
      happy_run (by simp [effHappy])⟩

/-- C9 (counterexample): with `isCaller` equal to the non-boolean
JSON-decoded value `1`, the emitted `ParticipantRole` is
`"AGENT_VOICE_SENTIMENT"`, not `"CALLER_VOICE_SENTIMENT"` as the claim
requires for every non-boolean value — Python's `1 == True` makes the
source's `detail['isCaller'] != True` test false. -/
theorem participant_role_int_one_cex :
    (lambda_handler envHappy evIntCaller stHappy).map
        (fun r => r.2.kinesisRecords.map
          (fun k => k.data.utteranceEvent.participantRole))
      = some ["AGENT_VOICE_SENTIMENT"]
      ∧ "AGENT_VOICE_SENTIMENT" ≠ "CALLER_VOICE_SENTIMENT" := by
  refine ⟨?_, by decide⟩
  rw [intCaller_run]
  rfl

/-- C9 (amended): the emitted `ParticipantRole` is
`"AGENT_VOICE_SENTIMENT"` exactly when `isCaller` compares equal to `True`
under Python equality (boolean `true`, or the numbers `1`/`1.0`), and
`"CALLER_VOICE_SENTIMENT"` for every other value; the `Sentiment` field is
the upper-cased `voiceToneLabel`. -/
theorem participant_role_python_eq (env : Env) (event : VTEvent)
    (st st' : VTState) (eff : Effects) (rec : KinesisRecord)
    (h : lambda_handler env event st = some (st', eff))
    (hrec : rec ∈ eff.kinesisRecords) :
    rec.data.utteranceEvent.participantRole
        = (if pyEqTrue event.detail.isCaller then "AGENT_VOICE_SENTIMENT"
           else "CALLER_VOICE_SENTIMENT")
      ∧ rec.data.utteranceEvent.sentiment
        = pyUpper event.detail.voiceToneAnalysisDetails.currentAverageVoiceTone.voiceToneLabel := by
  obtain ⟨r1, endMillis, -, hrec_eq⟩ := lambda_handler_emit h hrec
  subst hrec_eq
  refine ⟨?_, rfl⟩
  cases hb : pyEqTrue event.detail.isCaller <;> simp [hb]

/-- C9 (witness): the hypotheses of `participant_role_python_eq` hold at
the happy-path input. -/
theorem participant_role_python_eq_witness :
    lambda_handler envHappy evHappy stHappy = some (stHappyOut, effHappy)
      ∧ recHappy ∈ effHappy.kinesisRecords
      ∧ (recHappy.data.utteranceEvent.participantRole
            = (if pyEqTrue evHappy.detail.isCaller then "AGENT_VOICE_SENTIMENT"
               else "CALLER_VOICE_SENTIMENT")
          ∧ recHappy.data.utteranceEvent.sentiment
            = pyUpper evHappy.detail.voiceToneAnalysisDetails.currentAverageVoiceTone.voiceToneLabel) :=
  ⟨happy_run, by simp [effHappy],
    participant_role_python_eq envHappy evHappy stHappy stHappyOut effHappy recHappy
      happy_run (by simp [effHappy])⟩

/-- C10: on an event whose `detailStatus` is neither `"AnalyticsReady"`
nor `"VoiceToneAnalysisSuccessful"`, the handler returns having started no
analysis task, written nothing to the durable table, emitted nothing to
the stream, and left both process-local caches unchanged (the module
state, caches and table included, is returned as it was). -/
theorem handler_unrecognized_status_noop (env : Env) (event : VTEvent)
    (st : VTState)
    (h1 : event.detail.detailStatus ≠ "AnalyticsReady")
    (h2 : event.detail.detailStatus ≠ "VoiceToneAnalysisSuccessful") :
    lambda_handler env event st
      = some (st, { startedTasks := [], kinesisRecords := [] }) := by
  simp [lambda_handler, stateAfterStart, startEffects, h1, h2]

/-- C10 (witness): the hypotheses of `handler_unrecognized_status_noop`
hold at the concrete event with status `"VoiceToneAnalysisFailed"`. -/
theorem handler_unrecognized_status_noop_witness :
    evOtherStatus.detail.detailStatus ≠ "AnalyticsReady"
      ∧ evOtherStatus.detail.detailStatus ≠ "VoiceToneAnalysisSuccessful"
      ∧ lambda_handler envHappy evOtherStatus stHappy
          = some (stHappy, { startedTasks := [], kinesisRecords := [] }) :=
  ⟨by decide, by decide,
    handler_unrecognized_status_noop envHappy evOtherStatus stHappy
      (by decide) (by decide)⟩

end LCA
